import Mathlib

/-!
Verification of an ETL pipeline (short-term-rental listings/reviews to a
star-schema warehouse) against its natural-language specification.

The development shallowly embeds the two core stages of the pipeline,
`run_validate` (src/pipeline/validate.py) and `run_transform`
(src/pipeline/transform.py), as executable Lean functions over lists of
records.  Tabular collections are lists of structures; nullable cells are
`Option`; numeric cells are `Rat` (the price pipeline is purely decimal on
the values exercised here); Python exceptions are `Option.none` results.
Pandas behaviours relied on by the source are modelled explicitly:
`drop_duplicates(keep="first")` is `dedupByKey`, `df.index + 1` surrogate
keys are `withSk`, left merges on a key that is unique in the right table
are `List.find?`, and `Series.between` is inclusive and false on missing
values.
-/

set_option maxRecDepth 4000

namespace ETL

/-- Characters kept by the price-cleaning regex `[^0-9.]` of
`transform.clean_price`: digits and the period. -/
def isPriceChar (c : Char) : Bool := c.isDigit || c == '.'

/-- Numeric value of a decimal digit character. -/
def digitVal (c : Char) : Nat := c.toNat - '0'.toNat

/-- Value of a non-empty list of decimal digit characters. -/
def natOfDigits (cs : List Char) : Nat :=
  cs.foldl (fun acc c => 10 * acc + digitVal c) 0

/-- Python `float(s)` restricted to strings of digits and periods (the only
characters surviving the regex filter): at most one period, at least one
digit or a digit-free side of a single period is allowed only when the other
side is non-empty; `"."` and `""` and multi-period strings raise, i.e.
return `none`. -/
def parsePriceChars (cs : List Char) : Option Rat :=
  let ip := cs.takeWhile (fun c => c ≠ '.')
  let rest := cs.dropWhile (fun c => c ≠ '.')
  match rest with
  | [] =>
      if ip.isEmpty || !(ip.all Char.isDigit) then none
      else some (mkRat (natOfDigits ip) 1)
  | _ :: fp =>
      if fp.any (fun c => c == '.') then none
      else if ip.isEmpty && fp.isEmpty then none
      else if !(ip.all Char.isDigit) || !(fp.all Char.isDigit) then none
      else some (mkRat (natOfDigits ip * 10 ^ fp.length + natOfDigits fp) (10 ^ fp.length))

/-- Pandas `Series.astype(str)` on a nullable string cell: a missing value
prints as `"nan"`. -/
def stringifyPrice : Option String → String
  | none => "nan"
  | some s => s

/-- Embedding of `transform.clean_price`, applied cell-wise: stringify,
strip every character that is not a digit or a period (regex `[^0-9.]`),
replace an empty result by `"0"`, and convert to float.  `none` models the
`ValueError` that `astype(float)` raises on a malformed remainder. -/
def clean_price (v : Option String) : Option Rat :=
  let t := (stringifyPrice v).toList.filter isPriceChar
  let t := if t.isEmpty then ['0'] else t
  parsePriceChars t

/-- Embedding of `transform.classify_price_tier`, applied cell-wise:
`pd.cut` with bins `[-1, 50, 150, inf]` and right-closed intervals, labels
budget / mid / premium; values outside every bin (price ≤ -1) get `NaN`,
modelled as `none`. -/
def classify_price_tier (p : Rat) : Option String :=
  if -1 < p ∧ p ≤ 50 then some "budget"
  else if 50 < p ∧ p ≤ 150 then some "mid"
  else if 150 < p then some "premium"
  else none

/-- A raw listing row restricted to the 18 required columns of
`validate.run_validate` (the selection `listings[listings_required]` drops
any extra columns, so only these can reach later stages).  Nullable cells
are `Option`; `latitude`, `longitude` and `availability_365` are the cells
fed to `pd.to_numeric(errors="coerce")`, modelled as already
numeric-or-missing; `price` stays a raw nullable string until the transform
cleans it. -/
structure RawListing where
  id : Option Int
  name : String
  host_id : Int
  host_name : String
  neighbourhood_group : String
  neighbourhood : String
  latitude : Option Rat
  longitude : Option Rat
  room_type : String
  price : Option String
  minimum_nights : Option Rat
  number_of_reviews : Option Rat
  last_review : Option String
  reviews_per_month : Option Rat
  calculated_host_listings_count : Int
  availability_365 : Option Rat
  number_of_reviews_ltm : Option Rat
  license : String
deriving DecidableEq

/-- A raw review row restricted to the two required columns.  `date` is the
value after `pd.to_datetime(errors="coerce")`: an epoch-day number, or
`none` for `NaT`. -/
structure RawReview where
  listing_id : Option Int
  date : Option Int
deriving DecidableEq

/-- An input collection for `run_validate` together with the set of column
names it actually carries (the column-presence check and the subsequent
column selection consult `df.columns`). -/
structure ListingsFrame where
  cols : List String
  rows : List RawListing
deriving DecidableEq

/-- Reviews input frame, analogous to `ListingsFrame`. -/
structure ReviewsFrame where
  cols : List String
  rows : List RawReview
deriving DecidableEq

/-- The status-specific payload of one quality-check record, named after
the JSON field the source writes (`missing_columns` / `null_count` /
`duplicate_count` / `invalid_count` / `orphan_reviews`). -/
inductive QCPayload
  | missingColumns (cols : List String)
  | nullCount (n : Nat)
  | duplicateCount (n : Nat)
  | invalidCount (n : Nat)
  | orphanReviews (n : Nat)
deriving DecidableEq

/-- One entry of the `checks` list of the data-quality report. -/
structure QualityCheck where
  name : String
  status : String
  payload : QCPayload
deriving DecidableEq

/-- The data-quality report assembled at the end of `run_validate`. -/
structure DQReport where
  listings_row_count_after_validation : Nat
  reviews_row_count_after_validation : Nat
  checks : List QualityCheck
deriving DecidableEq

/-- The validation thresholds read from `config.yaml` (`min_price` is read
by the source but never used). -/
structure ValidationConfig where
  min_price : Rat
  max_availability : Rat
  min_latitude : Rat
  max_latitude : Rat
  min_longitude : Rat
  max_longitude : Rat
deriving DecidableEq

/-- The `validation_cfg.get(..., default)` fallbacks of the source. -/
def defaultConfig : ValidationConfig :=
  ⟨1, 365, -90, 90, -180, 180⟩

/-- The 18 required listing columns of `run_validate`. -/
def listings_required : List String :=
  ["id", "name", "host_id", "host_name", "neighbourhood_group",
   "neighbourhood", "latitude", "longitude", "room_type", "price",
   "minimum_nights", "number_of_reviews", "last_review",
   "reviews_per_month", "calculated_host_listings_count",
   "availability_365", "number_of_reviews_ltm", "license"]

/-- The 2 required review columns of `run_validate`. -/
def reviews_required : List String := ["listing_id", "date"]

/-- Embedding of `validate._check_columns_present`: one result recording
the missing required columns; it never drops rows. -/
def check_columns_present (cols required : List String) (name : String) : QualityCheck :=
  let missing := required.filter (fun c => !(cols.contains c))
  ⟨name, if missing.isEmpty then "pass" else "fail", .missingColumns missing⟩

/-- The `"pass" if n == 0 else "fail"` pattern shared by every counting
check of the source. -/
def passFail (n : Nat) : String := if n = 0 then "pass" else "fail"

/-- Pandas `Series.between(lo, hi)` on a nullable numeric cell: inclusive
on both ends and `False` on a missing value. -/
def betweenO (v : Option Rat) (lo hi : Rat) : Bool :=
  match v with
  | some x => decide (lo ≤ x ∧ x ≤ hi)
  | none => false

/-- Pandas `drop_duplicates(subset=key, keep="first")`: keep each row whose
key has not been seen earlier; `seen` accumulates the keys already kept. -/
def dedupByKey {α β : Type} [DecidableEq β] (key : α → β) : List α → List β → List α
  | [], _ => []
  | x :: xs, seen =>
    if key x ∈ seen then dedupByKey key xs seen
    else x :: dedupByKey key xs (key x :: seen)

/-- Pandas `Series.duplicated().sum()`: the number of entries that repeat
an earlier value, i.e. total length minus number of distinct values. -/
def dupCount {α : Type} [DecidableEq α] (l : List α) : Nat :=
  l.length - l.dedup.length

/-- The part of `run_validate` after the column selection has succeeded:
all remaining checks and row drops, in source order, ending with the
report.  (The two column-presence results are computed before the
selection and passed in.) -/
def run_validate_core (c1 c2 : QualityCheck) (listings0 : List RawListing)
    (reviews0 : List RawReview) (cfg : ValidationConfig) :
    List RawListing × List RawReview × DQReport :=
  let listings := listings0
  let reviews := reviews0
    -- null checks on the two primary identifiers, then drop null ids
    let lNulls := listings.countP (fun l => l.id.isNone)
    let c3 : QualityCheck := ⟨"listings_id_not_null", passFail lNulls, .nullCount lNulls⟩
    let rNulls := reviews.countP (fun r => r.listing_id.isNone)
    let c4 : QualityCheck := ⟨"reviews_listing_id_not_null", passFail rNulls, .nullCount rNulls⟩
    let listings := listings.filter (fun l => l.id.isSome)
    let reviews := reviews.filter (fun r => r.listing_id.isSome)
    -- uniqueness check on listing id, then deduplicate keeping the first
    let dups := dupCount (listings.map (fun l => l.id))
    let c5 : QualityCheck := ⟨"listings_id_unique", passFail dups, .duplicateCount dups⟩
    let listings := dedupByKey (fun l => l.id) listings []
    -- numeric coercion of availability/latitude/longitude is the identity
    -- here because those cells are modelled as numeric-or-missing already
    -- price non-null check: recorded, never drops rows
    let pNulls := listings.countP (fun l => l.price.isNone)
    let c6 : QualityCheck := ⟨"price_not_null_raw", passFail pNulls, .nullCount pNulls⟩
    -- latitude/longitude range checks, then one combined geo drop
    let invalidLat := fun (l : RawListing) => !(betweenO l.latitude cfg.min_latitude cfg.max_latitude)
    let invalidLon := fun (l : RawListing) => !(betweenO l.longitude cfg.min_longitude cfg.max_longitude)
    let nLat := listings.countP invalidLat
    let c7 : QualityCheck := ⟨"latitude_in_range", passFail nLat, .invalidCount nLat⟩
    let nLon := listings.countP invalidLon
    let c8 : QualityCheck := ⟨"longitude_in_range", passFail nLon, .invalidCount nLon⟩
    let listings := listings.filter (fun l => !(invalidLat l || invalidLon l))
    -- availability range check against the rows surviving the geo drop
    let invalidAvail := fun (l : RawListing) => !(betweenO l.availability_365 0 cfg.max_availability)
    let nAvail := listings.countP invalidAvail
    let c9 : QualityCheck := ⟨"availability_in_range", passFail nAvail, .invalidCount nAvail⟩
    let listings := listings.filter (fun l => !(invalidAvail l))
    -- FK check: reviews.listing_id must exist among surviving listings.id
    let validIds := listings.map (fun l => l.id)
    let orphan := fun (r : RawReview) => !(validIds.contains r.listing_id)
    let nOrphan := reviews.countP orphan
    let c10 : QualityCheck := ⟨"reviews_listing_id_fk", passFail nOrphan, .orphanReviews nOrphan⟩
    let reviews := reviews.filter (fun r => !(orphan r))
    (listings, reviews,
      ⟨listings.length, reviews.length, [c1, c2, c3, c4, c5, c6, c7, c8, c9, c10]⟩)

/-- Embedding of `validate.run_validate`.  The result is `none` exactly
when the column selection `listings[listings_required]` /
`reviews[reviews_required]` raises `KeyError` because a required column is
absent (the two column-presence checks are recorded first, but the report
is only written at the end of the run, so it is lost); otherwise it is the
narrowed listings, the narrowed reviews, and the quality report.  Config
reading and report writing are abstracted into the `cfg` argument and the
returned report. -/
def run_validate (lf : ListingsFrame) (rf : ReviewsFrame) (cfg : ValidationConfig) :
    Option (List RawListing × List RawReview × DQReport) :=
  let c1 := check_columns_present lf.cols listings_required "listings_columns_present"
  let c2 := check_columns_present rf.cols reviews_required "reviews_columns_present"
  if (listings_required.all fun c => decide (c ∈ lf.cols)) &&
      (reviews_required.all fun c => decide (c ∈ rf.cols)) then
    some (run_validate_core c1 c2 lf.rows rf.rows cfg)
  else none

/-- Rational multiplication computed directly on numerator and
denominator.  It equals `*` on `Rat` (theorem `rmul_eq`); the core
operation is `irreducible`, which would block evaluation of the pipeline
inside proofs, so the embedding uses this transparent equivalent. -/
def rmul (a b : Rat) : Rat := mkRat (a.num * b.num) (a.den * b.den)

/-- Division of a rational by a natural number computed directly on the
denominator.  It equals `/ n` on `Rat` (theorem `rdivNat_eq`); see
`rmul`. -/
def rdivNat (a : Rat) (n : Nat) : Rat := mkRat a.num (a.den * n)

/-- A listing row after the cleaning / feature-engineering prefix of
`run_transform` (rename `id` to `listing_id`, `clean_price`,
`pd.to_numeric(...).fillna(0)` on the four counters, occupancy, revenue and
tier columns added). -/
structure CleanListing where
  listing_id : Option Int
  name : String
  host_id : Int
  host_name : String
  neighbourhood_group : String
  neighbourhood : String
  latitude : Option Rat
  longitude : Option Rat
  room_type : String
  price : Rat
  minimum_nights : Rat
  number_of_reviews : Rat
  last_review : Option String
  reviews_per_month : Rat
  calculated_host_listings_count : Int
  availability_365 : Option Rat
  number_of_reviews_ltm : Rat
  license : String
  estimated_occupancy_rate : Rat
  estimated_monthly_revenue : Rat
  price_tier : Option String
deriving DecidableEq

/-- The cleaning / feature-engineering prefix of `run_transform` on one
row: `none` when `clean_price` raises.  The occupancy proxy is
`(reviews_per_month / 5).clip(lower=0, upper=1)`, the revenue is
`price * occupancy * 30`, the tier is `classify_price_tier`. -/
def cleanListing (l : RawListing) : Option CleanListing :=
  (clean_price l.price).map fun p =>
    let occ := min (max (rdivNat (l.reviews_per_month.getD 0) 5) 0) 1
    { listing_id := l.id
      name := l.name
      host_id := l.host_id
      host_name := l.host_name
      neighbourhood_group := l.neighbourhood_group
      neighbourhood := l.neighbourhood
      latitude := l.latitude
      longitude := l.longitude
      room_type := l.room_type
      price := p
      minimum_nights := l.minimum_nights.getD 0
      number_of_reviews := l.number_of_reviews.getD 0
      last_review := l.last_review
      reviews_per_month := l.reviews_per_month.getD 0
      calculated_host_listings_count := l.calculated_host_listings_count
      availability_365 := l.availability_365
      number_of_reviews_ltm := l.number_of_reviews_ltm.getD 0
      license := l.license
      estimated_occupancy_rate := occ
      estimated_monthly_revenue := rmul (rmul p occ) 30
      price_tier := classify_price_tier p }

/-- The cleaning prefix of `run_transform` on the whole listings
collection; `none` as soon as one price fails to parse (the vectorised
`astype(float)` raises for the whole column). -/
def cleanListings : List RawListing → Option (List CleanListing)
  | [] => some []
  | l :: ls =>
    match cleanListing l, cleanListings ls with
    | some c, some cs => some (c :: cs)
    | _, _ => none

/-- The `df.index + 1` surrogate-key pattern after `reset_index(drop=True)`:
row `i` (0-based, counting from `n`) is built with key `n + i + 1`.  The
pipeline always starts it at `n = 0`. -/
def withSk {α β : Type} (mk : Nat → α → β) : Nat → List α → List β
  | _, [] => []
  | n, x :: xs => mk (n + 1) x :: withSk mk (n + 1) xs

/-- Year, month and day of the civil calendar for an epoch-day number
(days since 1970-01-01), the standard days-to-civil algorithm. -/
def civilFromDays (z : Int) : Int × Nat × Nat :=
  let z' := z + 719468
  let era : Int := z'.fdiv 146097
  let doe : Nat := (z' - era * 146097).toNat
  let yoe : Nat := (doe - doe / 1460 + doe / 36524 - doe / 146096) / 365
  let doy : Nat := doe - (365 * yoe + yoe / 4 - yoe / 100)
  let mp : Nat := (5 * doy + 2) / 153
  let d : Nat := doy - (153 * mp + 2) / 5 + 1
  let m : Nat := if mp < 10 then mp + 3 else mp - 9
  (if m ≤ 2 then (yoe : Int) + era * 400 + 1 else (yoe : Int) + era * 400, m, d)

/-- Pandas `dt.month_name()`. -/
def monthName : Nat → String
  | 1 => "January"
  | 2 => "February"
  | 3 => "March"
  | 4 => "April"
  | 5 => "May"
  | 6 => "June"
  | 7 => "July"
  | 8 => "August"
  | 9 => "September"
  | 10 => "October"
  | 11 => "November"
  | 12 => "December"
  | _ => ""

/-- Pandas `dt.weekday` (Monday = 0 … Sunday = 6) of an epoch-day number;
day 0 (1970-01-01) is a Thursday. -/
def weekdayOfEpochDay (z : Int) : Nat := ((z + 3) % 7).toNat

/-- Pandas `dt.day_name()` from the `dt.weekday` number. -/
def dayName : Nat → String
  | 0 => "Monday"
  | 1 => "Tuesday"
  | 2 => "Wednesday"
  | 3 => "Thursday"
  | 4 => "Friday"
  | 5 => "Saturday"
  | 6 => "Sunday"
  | _ => ""

/-- A row of `dim_date`. -/
structure DimDateRow where
  date_sk : Nat
  full_date : Int
  year : Int
  month : Nat
  day : Nat
  month_name : String
  day_of_week : Nat
  day_name : String
deriving DecidableEq

/-- A row of `dim_neighborhood`. -/
structure DimNeighborhoodRow where
  neighborhood_sk : Nat
  neighbourhood_group : String
  neighbourhood : String
deriving DecidableEq

/-- A row of `dim_host` (SCD2-shaped: `valid_from` is the run date,
`valid_to` is open, `is_current` is true). -/
structure DimHostRow where
  host_sk : Nat
  host_id : Int
  host_name : String
  calculated_host_listings_count : Int
  valid_from : Int
  valid_to : Option Int
  is_current : Bool
deriving DecidableEq

/-- A row of the intermediate `dim_listing` frame of `run_transform`
(the selection at lines 122-142, including the three derived metrics). -/
structure DimListingRow where
  listing_sk : Nat
  listing_id : Option Int
  name : String
  host_id : Int
  neighborhood_sk : Option Nat
  room_type : String
  price : Rat
  minimum_nights : Rat
  availability_365 : Option Rat
  number_of_reviews : Rat
  reviews_per_month : Rat
  number_of_reviews_ltm : Rat
  license : String
  latitude : Option Rat
  longitude : Option Rat
  estimated_occupancy_rate : Rat
  estimated_monthly_revenue : Rat
  price_tier : Option String
deriving DecidableEq

/-- A row of the `dim_listing` snapshot handed to the loader: the final
column selection of `run_transform` leaves the three derived metrics out
(they are commented out in the source). -/
structure DimListingOut where
  listing_sk : Nat
  listing_id : Option Int
  name : String
  host_id : Int
  neighborhood_sk : Option Nat
  room_type : String
  price : Rat
  minimum_nights : Rat
  availability_365 : Option Rat
  number_of_reviews : Rat
  reviews_per_month : Rat
  number_of_reviews_ltm : Rat
  license : String
  latitude : Option Rat
  longitude : Option Rat
deriving DecidableEq

/-- A row of `fact_reviews` after the three left joins: each surrogate key
is `none` when its join failed to resolve. -/
structure FactRow where
  listing_sk : Option Nat
  host_sk : Option Nat
  date_sk : Option Nat
  review_count : Nat
deriving DecidableEq

/-- The dimension snapshots handed to the loader. -/
structure Dims where
  dim_date : List DimDateRow
  dim_neighborhood : List DimNeighborhoodRow
  dim_host : List DimHostRow
  dim_listing : List DimListingOut
deriving DecidableEq

/-- The fact snapshot handed to the loader. -/
structure Facts where
  fact_reviews : List FactRow
deriving DecidableEq

/-- Embedding of the `dim_date` construction: non-missing review dates,
de-duplicated, sorted ascending, surrogate key = index + 1, calendar
attributes derived from the date. -/
def build_dim_date (reviews : List RawReview) : List DimDateRow :=
  let dates := reviews.filterMap (fun r => r.date)
  let dates := dedupByKey (fun d => d) dates []
  let dates := List.insertionSort (fun a b : Int => a ≤ b) dates
  withSk (fun sk d =>
    let c := civilFromDays d
    ⟨sk, d, c.1, c.2.1, c.2.2, monthName c.2.1,
      weekdayOfEpochDay d + 1, dayName (weekdayOfEpochDay d)⟩) 0 dates

/-- Embedding of the `dim_neighborhood` construction: distinct
(group, neighbourhood) pairs in first-seen order, surrogate key =
index + 1. -/
def build_dim_neighborhood (cl : List CleanListing) : List DimNeighborhoodRow :=
  withSk (fun sk l => ⟨sk, l.neighbourhood_group, l.neighbourhood⟩) 0
    (dedupByKey (fun l => (l.neighbourhood_group, l.neighbourhood)) cl [])

/-- Embedding of the `dim_host` construction: de-duplicate on `host_id`
keeping the first occurrence, surrogate key = index + 1, `valid_from` =
`pd.Timestamp.today().normalize()` (the `run_date` argument), `valid_to` =
`NaT`, `is_current` = `True`. -/
def build_dim_host (cl : List CleanListing) (run_date : Int) : List DimHostRow :=
  withSk (fun sk l =>
      ⟨sk, l.host_id, l.host_name, l.calculated_host_listings_count,
        run_date, none, true⟩) 0
    (dedupByKey (fun l => l.host_id) cl [])

/-- The left merge of a listing against `dim_neighborhood` on the
(group, neighbourhood) pair: the pair is unique in `dim_neighborhood`, so
the merge is a first-match lookup; no match leaves the key missing. -/
def lookupNbhdSk (dn : List DimNeighborhoodRow) (l : CleanListing) : Option Nat :=
  (dn.find? (fun n =>
    n.neighbourhood_group == l.neighbourhood_group &&
      n.neighbourhood == l.neighbourhood)).map (fun n => n.neighborhood_sk)

/-- Embedding of the `dim_listing` construction: merge the cleaned
listings with `dim_neighborhood`, select the listing columns,
de-duplicate on `listing_id` keeping the first occurrence, surrogate
key = index + 1. -/
def build_dim_listing (cl : List CleanListing) (dn : List DimNeighborhoodRow) :
    List DimListingRow :=
  withSk (fun sk (p : CleanListing × Option Nat) =>
      ⟨sk, p.1.listing_id, p.1.name, p.1.host_id, p.2, p.1.room_type,
        p.1.price, p.1.minimum_nights, p.1.availability_365,
        p.1.number_of_reviews, p.1.reviews_per_month,
        p.1.number_of_reviews_ltm, p.1.license, p.1.latitude, p.1.longitude,
        p.1.estimated_occupancy_rate, p.1.estimated_monthly_revenue,
        p.1.price_tier⟩) 0
    (dedupByKey (fun (p : CleanListing × Option Nat) => p.1.listing_id)
      (cl.map (fun l => (l, lookupNbhdSk dn l)))
      [])

/-- The three left merges of the fact build on one review row: reviews →
`dim_listing` on `listing_id` (yielding `listing_sk` and the dimension's
`host_id`), → `dim_host` on that `host_id`, → `dim_date` on the calendar
date; each right side is unique in its key, so the merges are first-match
lookups, and `review_count` is set to 1. -/
def joinReview (dl : List DimListingRow) (dh : List DimHostRow)
    (dd : List DimDateRow) (r : RawReview) : FactRow :=
  let m1 := dl.find? (fun x => x.listing_id == r.listing_id)
  let host_sk :=
    (m1.bind (fun x => dh.find? (fun h => h.host_id == x.host_id))).map
      (fun h => h.host_sk)
  let date_sk :=
    (r.date.bind (fun d => dd.find? (fun x => x.full_date == d))).map
      (fun x => x.date_sk)
  ⟨m1.map (fun x => x.listing_sk), host_sk, date_sk, 1⟩

/-- The final `dropna(subset=["listing_sk", "host_sk", "date_sk"])` gate of
the fact build. -/
def dropnaFact (l : List FactRow) : List FactRow :=
  l.filter (fun f => f.listing_sk.isSome && f.host_sk.isSome && f.date_sk.isSome)

/-- The final `dim_listing` column selection handed to the loader (the
three derived metrics are commented out in the source). -/
def toDimListingOut (x : DimListingRow) : DimListingOut :=
  ⟨x.listing_sk, x.listing_id, x.name, x.host_id, x.neighborhood_sk,
    x.room_type, x.price, x.minimum_nights, x.availability_365,
    x.number_of_reviews, x.reviews_per_month, x.number_of_reviews_ltm,
    x.license, x.latitude, x.longitude⟩

/-- The table-building suffix of `run_transform`, total once every price
parsed. -/
def build_tables (cl : List CleanListing) (reviews : List RawReview)
    (run_date : Int) : Dims × Facts :=
  let dim_date := build_dim_date reviews
  let dim_neighborhood := build_dim_neighborhood cl
  let dim_host := build_dim_host cl run_date
  let dim_listing := build_dim_listing cl dim_neighborhood
  let fact := dropnaFact (reviews.map (joinReview dim_listing dim_host dim_date))
  (⟨dim_date, dim_neighborhood, dim_host, dim_listing.map toDimListingOut⟩,
    ⟨fact⟩)

/-- Embedding of `transform.run_transform`.  `run_date` models
`pd.Timestamp.today().normalize()`, an implicit input of the source that is
not part of the data; `none` models the `ValueError` raised by
`clean_price` on an unparsable price. -/
def run_transform (listings : List RawListing) (reviews : List RawReview)
    (run_date : Int) : Option (Dims × Facts) :=
  (cleanListings listings).map (fun cl => build_tables cl reviews run_date)

/-- The column list of the `dim_listing` snapshot handed to the loader,
copied from the final selection in the source (transform.py lines 200-221,
where the three derived-metric columns are commented out). -/
def dim_listing_snapshot_columns : List String :=
  ["listing_sk", "listing_id", "name", "host_id", "neighborhood_sk",
   "room_type", "price", "minimum_nights", "availability_365",
   "number_of_reviews", "reviews_per_month", "number_of_reviews_ltm",
   "license", "latitude", "longitude"]

/-- The three derived-metric columns of the data model. -/
def derived_metric_columns : List String :=
  ["estimated_occupancy_rate", "estimated_monthly_revenue", "price_tier"]

/-- Written from the specification, not the source (the refinement target
of claim C3): the DimListing attribute set of the data model, "surrogate
key, natural listing id, name, host id, neighborhood surrogate key, room
type, cleaned price, minimum nights, availability, review counters,
license, coordinates, and derived metrics (estimated occupancy rate,
estimated monthly revenue, price tier)". -/
def spec_dim_listing_columns : List String :=
  ["listing_sk", "listing_id", "name", "host_id", "neighborhood_sk",
   "room_type", "price", "minimum_nights", "availability_365",
   "number_of_reviews", "reviews_per_month", "number_of_reviews_ltm",
   "license", "latitude", "longitude",
   "estimated_occupancy_rate", "estimated_monthly_revenue", "price_tier"]

/-- Overwrite the run-date-bearing `valid_from` cell of a `dim_host` row
with a fixed value, leaving every other cell in every table unchanged. -/
def scrubHostRunDate (h : DimHostRow) : DimHostRow :=
  ⟨h.host_sk, h.host_id, h.host_name, h.calculated_host_listings_count,
    0, h.valid_to, h.is_current⟩

/-- Apply `scrubHostRunDate` to the `dim_host` table of a transform
output. -/
def scrubRunDate (p : Dims × Facts) : Dims × Facts :=
  (⟨p.1.dim_date, p.1.dim_neighborhood, p.1.dim_host.map scrubHostRunDate,
    p.1.dim_listing⟩, p.2)

/-- A small concrete listings collection (two valid rows) used to
instantiate the transform theorems. -/
def exListings : List RawListing :=
  [⟨some 1, "Loft A", 10, "Ana", "G1", "N1", some 40, some (-73),
    "Entire home", some "$100", some 2, some 5, none, some 2, 1, some 100,
    some 1, "LIC-1"⟩,
   ⟨some 2, "Room B", 11, "Ben", "G1", "N2", some 41, some (-72),
    "Private room", some "50.5", some 1, some 3, some "2023-01-01", none,
    2, some 200, some 0, ""⟩]

/-- A small concrete reviews collection: three resolvable reviews, one
orphan (listing 3) and one with an unparsable date. -/
def exReviews : List RawReview :=
  [⟨some 1, some 19000⟩, ⟨some 2, some 18999⟩, ⟨some 1, some 19001⟩,
   ⟨some 3, some 19000⟩, ⟨some 1, none⟩]

/-- The transform output on the concrete example collections. -/
def exT : Dims × Facts :=
  (run_transform exListings exReviews 0).getD ⟨⟨[], [], [], []⟩, ⟨[]⟩⟩

/-- The cleaned example listings. -/
def exCl : List CleanListing := (cleanListings exListings).getD []

/-- Claim C8's listings frame: 3 listings, exactly one of them (id 3) with
the invalid longitude 200, everything else valid. -/
def c8Listings : ListingsFrame :=
  ⟨listings_required,
   [⟨some 1, "Loft A", 10, "Ana", "G1", "N1", some 40, some (-73),
     "Entire home", some "$100", some 2, some 5, none, some 2, 1, some 100,
     some 1, "LIC-1"⟩,
    ⟨some 2, "Room B", 11, "Ben", "G1", "N2", some 41, some (-72),
     "Private room", some "50.5", some 1, some 3, none, some 1, 2, some 200,
     some 0, ""⟩,
    ⟨some 3, "Cabin C", 12, "Cat", "G2", "N3", some 42, some 200,
     "Entire home", some "$80", some 3, some 2, none, some 1, 1, some 50,
     some 0, "LIC-3"⟩]⟩

/-- Claim C8's reviews frame: 5 reviews, exactly one of them referencing
the non-existent listing id 99. -/
def c8Reviews : ReviewsFrame :=
  ⟨reviews_required,
   [⟨some 1, some 19000⟩, ⟨some 1, some 19001⟩, ⟨some 2, some 19000⟩,
    ⟨some 2, some 19002⟩, ⟨some 99, some 19001⟩]⟩

/-- The validation output of claim C8's scenario. -/
def c8v : List RawListing × List RawReview × DQReport :=
  (run_validate c8Listings c8Reviews defaultConfig).getD ([], [], ⟨0, 0, []⟩)

/-- The transform output of claim C8's scenario. -/
def c8t : Dims × Facts :=
  (run_transform c8v.1 c8v.2.1 0).getD ⟨⟨[], [], [], []⟩, ⟨[]⟩⟩

/-- A listing whose raw price is null (`NaN`), otherwise valid. -/
def exNullListing : RawListing :=
  ⟨some 7, "NoPrice", 20, "Cal", "G1", "N1", some 40, some (-73),
   "Entire home", none, some 1, some 0, none, some 0, 1, some 10, some 0, ""⟩

/-- Claim C10's listings frame: the single null-price listing. -/
def c10Listings : ListingsFrame := ⟨listings_required, [exNullListing]⟩

/-- Claim C10's reviews frame: one review of the null-price listing. -/
def c10Reviews : ReviewsFrame := ⟨reviews_required, [⟨some 7, some 19000⟩]⟩

/-- The validation output of claim C10's scenario. -/
def c10v : List RawListing × List RawReview × DQReport :=
  (run_validate c10Listings c10Reviews defaultConfig).getD ([], [], ⟨0, 0, []⟩)

/-- The transform output of claim C10's scenario. -/
def c10t : Dims × Facts :=
  (run_transform c10v.1 c10v.2.1 0).getD ⟨⟨[], [], [], []⟩, ⟨[]⟩⟩

end ETL

namespace ETL

/-- Claim C5: `clean_price` removes every character that is not a digit or a
period from each raw price string (so pre-filtering the input changes
nothing), maps a resulting empty string to 0, and parses the remainder as a
decimal number; in particular `"$1,234.50"` cleans to `1234.50` and `""`
cleans to `0.0`. -/
theorem c5_clean_price_spec :
    (∀ s : String, clean_price (some s) =
      clean_price (some (String.mk (s.toList.filter isPriceChar)))) ∧
    clean_price (some "$1,234.50") = some (1234.50 : Rat) ∧
    clean_price (some "") = some 0 := by
  refine ⟨?_, ?_, by decide⟩
  case refine_2 =>
    have h : clean_price (some "$1,234.50") = some (mkRat 123450 100) := by decide
    rw [h]; norm_num
  intro s
  show clean_price (some s) =
    clean_price (some (String.mk (s.toList.filter isPriceChar)))
  simp only [clean_price, stringifyPrice, String.toList]
  simp [List.filter_filter]

/-- Claim C6: `classify_price_tier` assigns every price according to the
half-open bins `(-1, 50] → budget`, `(50, 150] → mid`, `(150, ∞) → premium`;
in particular 0 → budget, 50 → budget, 50.01 → mid, 150 → mid,
150.01 → premium. -/
theorem c6_price_tier_bins :
    (∀ p : Rat,
      ((-1 < p ∧ p ≤ 50) → classify_price_tier p = some "budget") ∧
      ((50 < p ∧ p ≤ 150) → classify_price_tier p = some "mid") ∧
      (150 < p → classify_price_tier p = some "premium")) ∧
    classify_price_tier 0 = some "budget" ∧
    classify_price_tier 50 = some "budget" ∧
    classify_price_tier (50.01 : Rat) = some "mid" ∧
    classify_price_tier 150 = some "mid" ∧
    classify_price_tier (150.01 : Rat) = some "premium" := by
  refine ⟨?_, by norm_num [classify_price_tier], by norm_num [classify_price_tier],
    by norm_num [classify_price_tier], by norm_num [classify_price_tier],
    by norm_num [classify_price_tier]⟩
  intro p
  refine ⟨fun h => ?_, fun h => ?_, fun h => ?_⟩
  · simp [classify_price_tier, h]
  · have h1 : ¬ (-1 < p ∧ p ≤ 50) := by
      rintro ⟨-, hle⟩; exact absurd h.1 (not_lt.mpr hle)
    simp [classify_price_tier, h1, h]
  · have h1 : ¬ (-1 < p ∧ p ≤ 50) := by
      rintro ⟨-, hle⟩
      exact absurd (lt_trans (by norm_num : (50:Rat) < 150) h) (not_lt.mpr hle)
    have h2 : ¬ (50 < p ∧ p ≤ 150) := by
      rintro ⟨-, hle⟩; exact absurd h (not_lt.mpr hle)
    simp [classify_price_tier, h1, h2, h]

/-- `rmul` is ordinary rational multiplication. -/
theorem rmul_eq (a b : Rat) : rmul a b = a * b := by
  rw [rmul, Rat.mkRat_eq_div]
  push_cast
  rw [← div_mul_div_comm, Rat.num_div_den, Rat.num_div_den]

/-- `rdivNat` is ordinary rational division. -/
theorem rdivNat_eq (a : Rat) (n : Nat) : rdivNat a n = a / n := by
  rcases Nat.eq_zero_or_pos n with rfl | hn
  · simp [rdivNat, mkRat]
  · rw [rdivNat, Rat.mkRat_eq_div]
    push_cast
    rw [← div_div, Rat.num_div_den]

/-- Rows of a keyed de-duplication are rows of the input. -/
theorem mem_dedupByKey {α β : Type} [DecidableEq β] (key : α → β) :
    ∀ (l : List α) (seen : List β) (x : α), x ∈ dedupByKey key l seen → x ∈ l := by
  intro l
  induction l with
  | nil => intro seen x h; simp [dedupByKey] at h
  | cons a l ih =>
    intro seen x h
    by_cases hk : key a ∈ seen
    · simp only [dedupByKey, if_pos hk] at h
      exact List.mem_cons_of_mem _ (ih _ _ h)
    · simp only [dedupByKey, if_neg hk, List.mem_cons] at h
      rcases h with rfl | h
      · exact List.mem_cons_self _ _
      · exact List.mem_cons_of_mem _ (ih _ _ h)

/-- Every key of the input survives a keyed de-duplication (or was already
in the seen set). -/
theorem key_mem_dedupByKey {α β : Type} [DecidableEq β] (key : α → β) :
    ∀ (l : List α) (seen : List β) (x : α), x ∈ l →
      key x ∈ seen ∨ key x ∈ (dedupByKey key l seen).map key := by
  intro l
  induction l with
  | nil => intro seen x h; cases h
  | cons a l ih =>
    intro seen x h
    rcases List.mem_cons.mp h with rfl | h
    · by_cases hk : key x ∈ seen
      · exact Or.inl hk
      · right
        simp [dedupByKey, if_neg hk]
    · by_cases hk : key a ∈ seen
      · rw [dedupByKey, if_pos hk]
        exact ih seen x h
      · rw [dedupByKey, if_neg hk]
        rcases ih (key a :: seen) x h with hs | hm
        · rcases List.mem_cons.mp hs with he | hs
          · right; simp [he]
          · exact Or.inl hs
        · right
          simp only [List.map_cons, List.mem_cons]
          exact Or.inr hm

/-- The keys of a keyed de-duplication are distinct and avoid the seen
set. -/
theorem nodup_dedupByKey_keys {α β : Type} [DecidableEq β] (key : α → β) :
    ∀ (l : List α) (seen : List β),
      ((dedupByKey key l seen).map key).Nodup ∧
      ∀ b ∈ (dedupByKey key l seen).map key, b ∉ seen := by
  intro l
  induction l with
  | nil => intro seen; simp [dedupByKey]
  | cons a l ih =>
    intro seen
    by_cases hk : key a ∈ seen
    · rw [dedupByKey, if_pos hk]
      exact ih seen
    · rw [dedupByKey, if_neg hk]
      obtain ⟨hnd, hdisj⟩ := ih (key a :: seen)
      refine ⟨List.nodup_cons.mpr ⟨?_, hnd⟩, ?_⟩
      · intro hmem
        exact hdisj _ hmem (List.mem_cons_self _ _)
      · intro b hb
        rcases List.mem_cons.mp hb with rfl | hb
        · exact hk
        · intro hbs
          exact hdisj _ hb (List.mem_cons_of_mem _ hbs)

/-- `withSk` preserves length. -/
theorem withSk_length {α β : Type} (mk : Nat → α → β) :
    ∀ (l : List α) (n : Nat), (withSk mk n l).length = l.length := by
  intro l
  induction l with
  | nil => intro n; rfl
  | cons a l ih => intro n; simp [withSk, ih]

/-- Projecting the surrogate key out of `withSk` yields the dense 1-based
(`n`-shifted) range. -/
theorem withSk_map_sk {α β : Type} (mk : Nat → α → β) (proj : β → Nat)
    (h : ∀ i x, proj (mk i x) = i) :
    ∀ (l : List α) (n : Nat),
      (withSk mk n l).map proj = List.range' (n + 1) l.length := by
  intro l
  induction l with
  | nil => intro n; rfl
  | cons a l ih =>
    intro n
    simp only [withSk, List.map_cons, List.length_cons, List.range'_succ, h, ih]

/-- Projecting a key-independent attribute out of `withSk` is just mapping
over the underlying rows. -/
theorem withSk_map_val {α β γ : Type} (mk : Nat → α → β) (proj : β → γ)
    (g : α → γ) (h : ∀ i x, proj (mk i x) = g x) :
    ∀ (l : List α) (n : Nat), (withSk mk n l).map proj = l.map g := by
  intro l
  induction l with
  | nil => intro n; rfl
  | cons a l ih =>
    intro n
    simp only [withSk, List.map_cons, h, ih]

/-- Mapping over `withSk` fuses into the row constructor. -/
theorem map_withSk {α β γ : Type} (mk : Nat → α → β) (f : β → γ) :
    ∀ (l : List α) (n : Nat),
      (withSk mk n l).map f = withSk (fun i x => f (mk i x)) n l := by
  intro l
  induction l with
  | nil => intro n; rfl
  | cons a l ih =>
    intro n
    simp only [withSk, List.map_cons, ih]

/-- Every row of `withSk` is the constructor applied to some input row. -/
theorem mem_withSk {α β : Type} (mk : Nat → α → β) :
    ∀ (l : List α) (n : Nat) (y : β),
      y ∈ withSk mk n l → ∃ i x, x ∈ l ∧ y = mk i x := by
  intro l
  induction l with
  | nil => intro n y h; simp [withSk] at h
  | cons a l ih =>
    intro n y h
    simp only [withSk, List.mem_cons] at h
    rcases h with rfl | h
    · exact ⟨n + 1, a, List.mem_cons_self _ _, rfl⟩
    · rcases ih (n + 1) y h with ⟨i, x, hx, rfl⟩
      exact ⟨i, x, List.mem_cons_of_mem _ hx, rfl⟩

/-- Every input row appears (with some key) among the rows of `withSk`. -/
theorem mem_withSk_of_mem {α β : Type} (mk : Nat → α → β) :
    ∀ (l : List α) (n : Nat) (x : α),
      x ∈ l → ∃ i, mk i x ∈ withSk mk n l := by
  intro l
  induction l with
  | nil => intro n x h; cases h
  | cons a l ih =>
    intro n x h
    rcases List.mem_cons.mp h with rfl | h
    · exact ⟨n + 1, List.mem_cons_self _ _⟩
    · rcases ih (n + 1) x h with ⟨i, hi⟩
      exact ⟨i, List.mem_cons_of_mem _ hi⟩

/-- Two host-dimension tables with the same `(host_id, host_sk)` cells give
the same host-key lookup results. -/
theorem find?_host_sk_eq :
    ∀ (dh1 dh2 : List DimHostRow),
      dh1.map (fun x => (x.host_id, x.host_sk)) =
        dh2.map (fun x => (x.host_id, x.host_sk)) →
      ∀ (k : Int),
        (dh1.find? (fun x => x.host_id == k)).map (fun x => x.host_sk) =
          (dh2.find? (fun x => x.host_id == k)).map (fun x => x.host_sk) := by
  intro dh1
  induction dh1 with
  | nil =>
    intro dh2 h k
    cases dh2 with
    | nil => rfl
    | cons b l2 => simp at h
  | cons a l1 ih =>
    intro dh2 h k
    cases dh2 with
    | nil => simp at h
    | cons b l2 =>
      simp only [List.map_cons, List.cons.injEq, Prod.mk.injEq] at h
      obtain ⟨⟨hid, hsk⟩, htl⟩ := h
      by_cases hp : (b.host_id == k) = true
      · rw [@List.find?_cons_of_pos _ (fun x => x.host_id == k) a l1
            (by show (a.host_id == k) = true; rw [hid]; exact hp),
          @List.find?_cons_of_pos _ (fun x => x.host_id == k) b l2 hp]
        simp [hsk]
      · rw [@List.find?_cons_of_neg _ (fun x => x.host_id == k) a l1
            (by show ¬(a.host_id == k) = true; rw [hid]; exact hp),
          @List.find?_cons_of_neg _ (fun x => x.host_id == k) b l2 hp]
        exact ih l2 htl k

/-- Claim C1 counterexample: an input whose listings frame carries only an
`id` column (all other required columns missing) makes `run_validate`
raise (`KeyError` at the column selection), modelled as a `none` result —
it does not return narrowed collections. -/
theorem c1_missing_columns_raise :
    run_validate ⟨["id"], []⟩ ⟨["listing_id", "date"], []⟩ defaultConfig = none := by
  decide

/-- Claim C1 (amended): provided every required column is present in both
input frames, `run_validate` never raises — each of the ten quality checks
records exactly one result (in the fixed battery order) and at most
removes rows, and the narrowed listings and reviews are returned. -/
theorem c1_run_validate_total_when_columns_present
    (lf : ListingsFrame) (rf : ReviewsFrame) (cfg : ValidationConfig)
    (hl : ∀ c ∈ listings_required, c ∈ lf.cols)
    (hr : ∀ c ∈ reviews_required, c ∈ rf.cols) :
    ∃ ls rs rep, run_validate lf rf cfg = some (ls, rs, rep) ∧
      rep.checks.map (fun c => c.name) =
        ["listings_columns_present", "reviews_columns_present",
         "listings_id_not_null", "reviews_listing_id_not_null",
         "listings_id_unique", "price_not_null_raw", "latitude_in_range",
         "longitude_in_range", "availability_in_range",
         "reviews_listing_id_fk"] := by
  have hg : ((listings_required.all fun c => decide (c ∈ lf.cols)) &&
      (reviews_required.all fun c => decide (c ∈ rf.cols))) = true := by
    rw [Bool.and_eq_true, List.all_eq_true, List.all_eq_true]
    constructor
    · intro c hc; simpa using hl c hc
    · intro c hc; simpa using hr c hc
  have heq : run_validate lf rf cfg = some (run_validate_core
      (check_columns_present lf.cols listings_required "listings_columns_present")
      (check_columns_present rf.cols reviews_required "reviews_columns_present")
      lf.rows rf.rows cfg) := by
    rw [run_validate]
    simp only [hg, if_true]
  refine ⟨_, _, _, heq, ?_⟩
  simp [run_validate_core, check_columns_present]

/-- Claim C1 witness: the amended theorem applied to frames that carry
exactly the required columns. -/
theorem c1_run_validate_total_witness :
    (∀ c ∈ listings_required, c ∈ listings_required) ∧
    (∀ c ∈ reviews_required, c ∈ reviews_required) ∧
    (∃ ls rs rep,
      run_validate ⟨listings_required, []⟩ ⟨reviews_required, []⟩ defaultConfig =
        some (ls, rs, rep) ∧
      rep.checks.map (fun c => c.name) =
        ["listings_columns_present", "reviews_columns_present",
         "listings_id_not_null", "reviews_listing_id_not_null",
         "listings_id_unique", "price_not_null_raw", "latitude_in_range",
         "longitude_in_range", "availability_in_range",
         "reviews_listing_id_fk"]) :=
  ⟨fun _ hc => hc, fun _ hc => hc,
    c1_run_validate_total_when_columns_present ⟨listings_required, []⟩
      ⟨reviews_required, []⟩ defaultConfig (fun _ hc => hc) (fun _ hc => hc)⟩

/-- Claim C3 counterexample: each of the three derived metrics belongs to
the specified DimListing column set but is absent from the snapshot that
`run_transform` hands to the loader (the source comments them out), so the
two column sets differ. -/
theorem c3_derived_metrics_missing_from_snapshot :
    "estimated_occupancy_rate" ∈ spec_dim_listing_columns ∧
    "estimated_monthly_revenue" ∈ spec_dim_listing_columns ∧
    "price_tier" ∈ spec_dim_listing_columns ∧
    "estimated_occupancy_rate" ∉ dim_listing_snapshot_columns ∧
    "estimated_monthly_revenue" ∉ dim_listing_snapshot_columns ∧
    "price_tier" ∉ dim_listing_snapshot_columns ∧
    dim_listing_snapshot_columns ≠ spec_dim_listing_columns := by
  decide

/-- Claim C3 (amended): the dim_listing snapshot handed to the loader has
exactly the specified DimListing column set minus the three derived
metrics (estimated occupancy rate, estimated monthly revenue, price tier),
which are computed on the intermediate table but excluded from the
snapshot. -/
theorem c3_snapshot_columns :
    dim_listing_snapshot_columns =
      spec_dim_listing_columns.filter
        (fun c => !(derived_metric_columns.contains c)) := by
  decide

/-- Claim C4 counterexample: on identical input collections, two
executions of the transform with different run dates produce different
outputs (`dim_host.valid_from` carries the run date), so `run_transform`
is not a function of the input collections alone. -/
theorem c4_not_deterministic_in_input_alone :
    run_transform exListings exReviews 0 ≠ run_transform exListings exReviews 1 := by
  decide

/-- Claim C4 (amended): the transform is deterministic in the input
collections and the run date; the run date influences nothing but the
`valid_from` column of `dim_host` (set to `pd.Timestamp.today()`), so two
executions on unchanged input produce byte-identical dimension and fact
collections except possibly that one column, and fully identical outputs
exactly when the two run dates coincide. -/
theorem c4_deterministic_up_to_run_date
    (L : List RawListing) (R : List RawReview) (d1 d2 : Int) :
    (run_transform L R d1).map scrubRunDate =
      (run_transform L R d2).map scrubRunDate := by
  cases h : cleanListings L with
  | none => simp [run_transform, h]
  | some cl =>
    have hhost : ∀ (k : Int),
        ((build_dim_host cl d1).find? (fun x => x.host_id == k)).map
            (fun x => x.host_sk) =
          ((build_dim_host cl d2).find? (fun x => x.host_id == k)).map
            (fun x => x.host_sk) := by
      intro k
      exact find?_host_sk_eq _ _
        (by rw [build_dim_host, build_dim_host, map_withSk, map_withSk]) k
    have hjoin : ∀ r : RawReview,
        joinReview (build_dim_listing cl (build_dim_neighborhood cl))
            (build_dim_host cl d1) (build_dim_date R) r =
          joinReview (build_dim_listing cl (build_dim_neighborhood cl))
            (build_dim_host cl d2) (build_dim_date R) r := by
      intro r
      unfold joinReview
      cases hm : (build_dim_listing cl (build_dim_neighborhood cl)).find?
          (fun x => x.listing_id == r.listing_id) with
      | none => rfl
      | some x =>
        simp only [Option.some_bind]
        rw [hhost x.host_id]
    have hfacts :
        R.map (joinReview (build_dim_listing cl (build_dim_neighborhood cl))
            (build_dim_host cl d1) (build_dim_date R)) =
          R.map (joinReview (build_dim_listing cl (build_dim_neighborhood cl))
            (build_dim_host cl d2) (build_dim_date R)) :=
      List.map_congr_left (fun r _ => hjoin r)
    have hhostscrub : (build_dim_host cl d1).map scrubHostRunDate =
        (build_dim_host cl d2).map scrubHostRunDate := by
      rw [build_dim_host, build_dim_host, map_withSk, map_withSk]
      rfl
    simp only [run_transform, h, Option.map_some', build_tables, scrubRunDate]
    rw [hhostscrub, hfacts]

/-- Claim C2: every row of the `fact_reviews` collection returned by
`run_transform` carries a non-null `listing_sk` occurring in
`dim_listing`, a non-null `host_sk` occurring in `dim_host`, a non-null
`date_sk` occurring in `dim_date`, and `review_count = 1`; joined rows
with an unresolved key are absent (every returned row satisfies the
predicate). -/
theorem c2_fact_reviews_integrity
    (L : List RawListing) (R : List RawReview) (d : Int)
    (dims : Dims) (facts : Facts)
    (h : run_transform L R d = some (dims, facts)) :
    ∀ f ∈ facts.fact_reviews,
      (∃ k, f.listing_sk = some k ∧
        k ∈ dims.dim_listing.map (fun x => x.listing_sk)) ∧
      (∃ k, f.host_sk = some k ∧
        k ∈ dims.dim_host.map (fun x => x.host_sk)) ∧
      (∃ k, f.date_sk = some k ∧
        k ∈ dims.dim_date.map (fun x => x.date_sk)) ∧
      f.review_count = 1 := by
  intro f hf
  cases hcl : cleanListings L with
  | none => rw [run_transform, hcl] at h; simp at h
  | some cl =>
    rw [run_transform, hcl] at h
    simp only [Option.map_some', Option.some.injEq] at h
    have hd : dims = (build_tables cl R d).1 := by rw [h]
    have hfa : facts = (build_tables cl R d).2 := by rw [h]
    subst hd
    subst hfa
    simp only [build_tables] at hf ⊢
    rw [dropnaFact, List.mem_filter] at hf
    obtain ⟨hmem, hpred⟩ := hf
    rw [List.mem_map] at hmem
    obtain ⟨r, hr, rfl⟩ := hmem
    simp only [Bool.and_eq_true] at hpred
    obtain ⟨⟨hls, hhs⟩, hds⟩ := hpred
    simp only [joinReview] at hls hhs hds ⊢
    refine ⟨?_, ?_, ?_, trivial⟩
    · obtain ⟨k, hk⟩ := Option.isSome_iff_exists.mp hls
      rw [Option.map_eq_some'] at hk
      obtain ⟨x, hx, rfl⟩ := hk
      refine ⟨x.listing_sk, by rw [hx]; rfl, ?_⟩
      rw [List.map_map]
      exact List.mem_map.mpr ⟨x, List.mem_of_find?_eq_some hx, rfl⟩
    · obtain ⟨k, hk⟩ := Option.isSome_iff_exists.mp hhs
      rw [Option.map_eq_some'] at hk
      obtain ⟨y, hy, rfl⟩ := hk
      rw [Option.bind_eq_some] at hy
      obtain ⟨x, hx, hfind⟩ := hy
      refine ⟨y.host_sk, by rw [hx, Option.some_bind, hfind]; rfl, ?_⟩
      exact List.mem_map.mpr ⟨y, List.mem_of_find?_eq_some hfind, rfl⟩
    · obtain ⟨k, hk⟩ := Option.isSome_iff_exists.mp hds
      rw [Option.map_eq_some'] at hk
      obtain ⟨z, hz, rfl⟩ := hk
      rw [Option.bind_eq_some] at hz
      obtain ⟨dte, hdte, hfind⟩ := hz
      refine ⟨z.date_sk, by rw [hdte, Option.some_bind, hfind]; rfl, ?_⟩
      exact List.mem_map.mpr ⟨z, List.mem_of_find?_eq_some hfind, rfl⟩

/-- Claim C2 witness: the integrity theorem applied to the concrete
example collections. -/
theorem c2_fact_reviews_integrity_witness :
    run_transform exListings exReviews 0 = some (exT.1, exT.2) ∧
    ∀ f ∈ exT.2.fact_reviews,
      (∃ k, f.listing_sk = some k ∧
        k ∈ exT.1.dim_listing.map (fun x => x.listing_sk)) ∧
      (∃ k, f.host_sk = some k ∧
        k ∈ exT.1.dim_host.map (fun x => x.host_sk)) ∧
      (∃ k, f.date_sk = some k ∧
        k ∈ exT.1.dim_date.map (fun x => x.date_sk)) ∧
      f.review_count = 1 :=
  ⟨by decide,
    c2_fact_reviews_integrity exListings exReviews 0 exT.1 exT.2 (by decide)⟩

/-- Claim C7: in every dimension table returned by `run_transform`, the
surrogate-key column is exactly `1, …, n` (unique, dense, 1-based), and in
`dim_date` rows are strictly increasing in date, so the key is the 1-based
rank among the sorted distinct review dates. -/
theorem c7_surrogate_keys_dense
    (L : List RawListing) (R : List RawReview) (d : Int)
    (dims : Dims) (facts : Facts)
    (h : run_transform L R d = some (dims, facts)) :
    dims.dim_date.map (fun x => x.date_sk) =
      List.range' 1 dims.dim_date.length ∧
    dims.dim_neighborhood.map (fun x => x.neighborhood_sk) =
      List.range' 1 dims.dim_neighborhood.length ∧
    dims.dim_host.map (fun x => x.host_sk) =
      List.range' 1 dims.dim_host.length ∧
    dims.dim_listing.map (fun x => x.listing_sk) =
      List.range' 1 dims.dim_listing.length ∧
    (dims.dim_date.map (fun x => x.full_date)).Pairwise
      (fun a b : Int => a < b) := by
  cases hcl : cleanListings L with
  | none => rw [run_transform, hcl] at h; simp at h
  | some cl =>
    rw [run_transform, hcl] at h
    simp only [Option.map_some', Option.some.injEq] at h
    have hd : dims = (build_tables cl R d).1 := by rw [h]
    subst hd
    simp only [build_tables]
    refine ⟨?_, ?_, ?_, ?_, ?_⟩
    · rw [build_dim_date, withSk_length]
      exact withSk_map_sk _ _ (fun i x => rfl) _ 0
    · rw [build_dim_neighborhood, withSk_length]
      exact withSk_map_sk _ _ (fun i x => rfl) _ 0
    · rw [build_dim_host, withSk_length]
      exact withSk_map_sk _ _ (fun i x => rfl) _ 0
    · rw [List.map_map, List.length_map, build_dim_listing, withSk_length]
      exact withSk_map_sk _ _ (fun i x => rfl) _ 0
    · rw [build_dim_date,
        withSk_map_val _ _ (fun dte : Int => dte) (fun i x => rfl),
        List.map_id']
      have hnd : (dedupByKey (fun dte : Int => dte)
          (R.filterMap (fun r => r.date)) []).Nodup := by
        have := (nodup_dedupByKey_keys (fun dte : Int => dte)
          (R.filterMap (fun r => r.date)) []).1
        rwa [List.map_id'] at this
      have hsorted := List.sorted_insertionSort (fun a b : Int => a ≤ b)
        (dedupByKey (fun dte : Int => dte) (R.filterMap (fun r => r.date)) [])
      have hnd' := (List.perm_insertionSort (fun a b : Int => a ≤ b)
        (dedupByKey (fun dte : Int => dte)
          (R.filterMap (fun r => r.date)) [])).symm.nodup hnd
      exact List.Sorted.lt_of_le hsorted hnd'

/-- Claim C7 witness: the density theorem applied to the concrete example
collections. -/
theorem c7_surrogate_keys_dense_witness :
    run_transform exListings exReviews 0 = some (exT.1, exT.2) ∧
    exT.1.dim_date.map (fun x => x.date_sk) =
      List.range' 1 exT.1.dim_date.length ∧
    exT.1.dim_neighborhood.map (fun x => x.neighborhood_sk) =
      List.range' 1 exT.1.dim_neighborhood.length ∧
    exT.1.dim_host.map (fun x => x.host_sk) =
      List.range' 1 exT.1.dim_host.length ∧
    exT.1.dim_listing.map (fun x => x.listing_sk) =
      List.range' 1 exT.1.dim_listing.length ∧
    (exT.1.dim_date.map (fun x => x.full_date)).Pairwise
      (fun a b : Int => a < b) :=
  ⟨by decide,
    c7_surrogate_keys_dense exListings exReviews 0 exT.1 exT.2 (by decide)⟩

/-- The `host_id` column of `dim_host` consists of the host ids of the
de-duplicated cleaned listings. -/
theorem dim_host_map_host_id (cl : List CleanListing) (d : Int) :
    (build_dim_host cl d).map (fun h => h.host_id) =
      (dedupByKey (fun c : CleanListing => c.host_id) cl []).map
        (fun c => c.host_id) := by
  rw [build_dim_host]
  apply withSk_map_val
  intro i x
  rfl

/-- Every `host_id` of an intermediate `dim_listing` row occurs in the
`host_id` column of `dim_host` built from the same cleaned listings. -/
theorem host_id_mem_dim_host (cl : List CleanListing)
    (dn : List DimNeighborhoodRow) (d : Int) (x : DimListingRow)
    (hx : x ∈ build_dim_listing cl dn) :
    x.host_id ∈ (build_dim_host cl d).map (fun h => h.host_id) := by
  obtain ⟨i, p, hp, rfl⟩ := mem_withSk _ _ _ _ hx
  have hp' : p ∈ cl.map (fun l => (l, lookupNbhdSk dn l)) :=
    mem_dedupByKey _ _ _ _ hp
  rw [List.mem_map] at hp'
  obtain ⟨l, hl, rfl⟩ := hp'
  show l.host_id ∈ (build_dim_host cl d).map (fun h => h.host_id)
  rw [dim_host_map_host_id]
  rcases key_mem_dedupByKey (fun c : CleanListing => c.host_id) cl [] l hl with
    hs | hm
  · cases hs
  · exact hm

/-- Claim C9: every `host_id` occurring in the `dim_listing` snapshot
returned by `run_transform` also occurs in `dim_host`, and in the fact
build a review whose listing join resolved always obtains a host key —
the host join can only fail for rows whose `listing_sk` is already
missing. -/
theorem c9_host_join_always_resolves :
    (∀ (L : List RawListing) (R : List RawReview) (d : Int)
        (dims : Dims) (facts : Facts),
      run_transform L R d = some (dims, facts) →
      ∀ row ∈ dims.dim_listing,
        row.host_id ∈ dims.dim_host.map (fun x => x.host_id)) ∧
    (∀ (cl : List CleanListing) (d : Int) (dd : List DimDateRow)
        (r : RawReview),
      (joinReview (build_dim_listing cl (build_dim_neighborhood cl))
          (build_dim_host cl d) dd r).listing_sk.isSome = true →
      (joinReview (build_dim_listing cl (build_dim_neighborhood cl))
          (build_dim_host cl d) dd r).host_sk.isSome = true) := by
  constructor
  · intro L R d dims facts h row hrow
    cases hcl : cleanListings L with
    | none => rw [run_transform, hcl] at h; simp at h
    | some cl =>
      rw [run_transform, hcl] at h
      simp only [Option.map_some', Option.some.injEq] at h
      have hd : dims = (build_tables cl R d).1 := by rw [h]
      subst hd
      simp only [build_tables] at hrow ⊢
      rw [List.mem_map] at hrow
      obtain ⟨x, hxmem, rfl⟩ := hrow
      show x.host_id ∈ _
      exact host_id_mem_dim_host cl _ d x hxmem
  · intro cl d dd r hls
    simp only [joinReview] at hls ⊢
    obtain ⟨k, hk⟩ := Option.isSome_iff_exists.mp hls
    rw [Option.map_eq_some'] at hk
    obtain ⟨x, hx, -⟩ := hk
    rw [hx, Option.some_bind]
    have hmem : x.host_id ∈ (build_dim_host cl d).map (fun h => h.host_id) :=
      host_id_mem_dim_host cl _ d x (List.mem_of_find?_eq_some hx)
    rw [List.mem_map] at hmem
    obtain ⟨hrow, hhm, hkeq⟩ := hmem
    have hfs : ((build_dim_host cl d).find?
        (fun h => h.host_id == x.host_id)).isSome = true :=
      List.find?_isSome.mpr ⟨hrow, hhm, beq_iff_eq.mpr hkeq⟩
    obtain ⟨y, hy⟩ := Option.isSome_iff_exists.mp hfs
    rw [hy]
    rfl

/-- Claim C9 witness: both conjuncts applied to the concrete example
collections and a concrete review of listing 1. -/
theorem c9_host_join_always_resolves_witness :
    run_transform exListings exReviews 0 = some (exT.1, exT.2) ∧
    (∀ row ∈ exT.1.dim_listing,
      row.host_id ∈ exT.1.dim_host.map (fun x => x.host_id)) ∧
    (joinReview (build_dim_listing exCl (build_dim_neighborhood exCl))
        (build_dim_host exCl 0) (build_dim_date exReviews)
        ⟨some 1, some 19000⟩).listing_sk.isSome = true ∧
    (joinReview (build_dim_listing exCl (build_dim_neighborhood exCl))
        (build_dim_host exCl 0) (build_dim_date exReviews)
        ⟨some 1, some 19000⟩).host_sk.isSome = true :=
  ⟨by decide,
    c9_host_join_always_resolves.1 exListings exReviews 0 exT.1 exT.2
      (by decide),
    by decide,
    c9_host_join_always_resolves.2 exCl 0 (build_dim_date exReviews)
      ⟨some 1, some 19000⟩ (by decide)⟩

/-- Claim C8: the end-to-end scenario — 3 listings of which exactly one
has longitude 200 and 5 reviews of which exactly one references a
non-existent listing: validation returns 2 listings and 4 reviews, the
report records `longitude_in_range` failing with `invalid_count` 1 and
`reviews_listing_id_fk` failing with `orphan_reviews` 1, and the transform
of that output yields a 2-row `dim_listing` and a 4-row `fact_reviews`
with every surrogate key resolved. -/
theorem c8_end_to_end :
    run_validate c8Listings c8Reviews defaultConfig = some c8v ∧
    c8v.1.length = 2 ∧
    c8v.2.1.length = 4 ∧
    c8v.2.2.listings_row_count_after_validation = 2 ∧
    c8v.2.2.reviews_row_count_after_validation = 4 ∧
    (⟨"longitude_in_range", "fail", .invalidCount 1⟩ : QualityCheck) ∈
      c8v.2.2.checks ∧
    (⟨"reviews_listing_id_fk", "fail", .orphanReviews 1⟩ : QualityCheck) ∈
      c8v.2.2.checks ∧
    run_transform c8v.1 c8v.2.1 0 = some c8t ∧
    c8t.1.dim_listing.length = 2 ∧
    c8t.2.fact_reviews.length = 4 ∧
    c8t.2.fact_reviews.all
      (fun f => f.listing_sk.isSome && f.host_sk.isSome && f.date_sk.isSome) =
      true := by
  decide

/-- Claim C10: a missing (null) raw price stringifies to `"nan"`, whose
filtered remainder is empty and so becomes `"0"`, parsed to 0; a listing
cleaned this way gets price 0, tier budget and estimated monthly revenue
0, and such a listing survives validation (the `price_not_null_raw` check
drops nothing) into `dim_listing` with price 0. -/
theorem c10_null_price_becomes_zero :
    (∀ l : RawListing, l.price = none →
      ∃ c, cleanListing l = some c ∧ c.price = 0 ∧
        c.price_tier = some "budget" ∧ c.estimated_monthly_revenue = 0) ∧
    stringifyPrice none = "nan" ∧
    ("nan".toList.filter isPriceChar) = [] ∧
    clean_price none = some 0 ∧
    classify_price_tier 0 = some "budget" ∧
    run_validate c10Listings c10Reviews defaultConfig = some c10v ∧
    run_transform c10v.1 c10v.2.1 0 = some c10t ∧
    c10t.1.dim_listing.map (fun x => x.price) = [0] ∧
    ((cleanListings c10v.1).getD []).map
      (fun c => (c.price, c.price_tier, c.estimated_monthly_revenue)) =
      [(0, some "budget", 0)] := by
  refine ⟨?_, rfl, by decide, by decide, by decide, by decide, by decide,
    by decide, by decide⟩
  intro l hp
  have h0 : clean_price l.price = some 0 := by rw [hp]; decide
  refine ⟨_, by rw [cleanListing, h0]; rfl, rfl, ?_, ?_⟩
  · show classify_price_tier 0 = some "budget"
    decide
  · show rmul (rmul 0 _) 30 = 0
    rw [rmul_eq, rmul_eq, zero_mul, zero_mul]

/-- Claim C10 witness: the null-price implication discharged at the
concrete null-price listing. -/
theorem c10_null_price_becomes_zero_witness :
    exNullListing.price = none ∧
    (∃ c, cleanListing exNullListing = some c ∧ c.price = 0 ∧
      c.price_tier = some "budget" ∧ c.estimated_monthly_revenue = 0) :=
  ⟨rfl, c10_null_price_becomes_zero.1 exNullListing rfl⟩

/-- Claim C6 witness: the three bin implications of `c6_price_tier_bins`
discharged at the concrete prices 25, 100 and 200. -/
theorem c6_price_tier_bins_witness :
    ((-1 < (25:Rat) ∧ (25:Rat) ≤ 50) ∧ classify_price_tier 25 = some "budget") ∧
    ((50 < (100:Rat) ∧ (100:Rat) ≤ 150) ∧ classify_price_tier 100 = some "mid") ∧
    (150 < (200:Rat) ∧ classify_price_tier 200 = some "premium") :=
  ⟨⟨by norm_num, (c6_price_tier_bins.1 25).1 (by norm_num)⟩,
   ⟨by norm_num, (c6_price_tier_bins.1 100).2.1 (by norm_num)⟩,
   ⟨by norm_num, (c6_price_tier_bins.1 200).2.2 (by norm_num)⟩⟩

end ETL
